import Mathlib

/-!
Shallow embedding of the cash-flow dashboard's Monte Carlo simulation engine
(`src/unnamed/part_005`, class `MonteCarloEngine`), the simulation POST API
handler (`src/unnamed/part_002`), and the ML forecasting utility
(`src/lib/ml-forecasting.ts`, class `MLForecasting`).

Conventions of the embedding:
* JavaScript numbers are modelled as rationals (`ℚ`); `Math.floor` is `Int.floor`,
  `Math.round` is `fun q => ⌊q + 1/2⌋` (round half up, as in JS).
* Transcendental primitives (`Math.sqrt`, `Math.log`, `Math.cos`, `Math.sin`,
  `Math.PI`) are uninterpreted parameters collected in a `MathPrims` record,
  since their exact values are irrational; theorems quantify over them.
* `Math.random` (after the zero-rejection `while` loops of `randomNormal`) is
  modelled as an explicit stream `ℕ → ℚ` of uniform draws, consumed two per
  `randomNormal` call, with a counter threaded through the simulation state.
* JS `x || d` on numbers (falsy defaulting: `0` ↦ `d`, missing ↦ `d`) is
  modelled by `jsOrInt` / `jsOrQ` on `Option` values.
* `Date` values are modelled as absolute month indices (`ℤ`): `new Date()` is an
  ambient parameter `now`, `date.setMonth(date.getMonth() + m)` is `now + m`,
  and `getMonth()` is `· % 12`.
-/

namespace CashFlow

/-- `ScenarioType` enum from the Prisma client. -/
inductive ScenarioType where
  | OPTIMISTIC
  | BASE
  | PESSIMISTIC
  | STRESS_TEST
deriving DecidableEq, Repr

/-- `ForecastModel` enum (`src/lib/enums.ts`). -/
inductive ForecastModel where
  | REGRESSION
  | ARIMA
  | PROPHET
  | ENSEMBLE
deriving DecidableEq, Repr

/-- The `customVariables` record of `SimulationParameters` (`src/unnamed/part_005`).
`none` models an absent (undefined) field. -/
structure CustomVariables where
  baseInflowMean : Option ℚ := none
  baseInflowStd : Option ℚ := none
  baseOutflowMean : Option ℚ := none
  baseOutflowStd : Option ℚ := none
  growthRateMean : Option ℚ := none
  growthRateStd : Option ℚ := none
  seasonalityVariance : Option ℚ := none
deriving DecidableEq, Repr

/-- `SimulationParameters` (`src/unnamed/part_005`). -/
structure SimulationParameters where
  numRuns : ℤ
  timeHorizon : ℤ
  scenario : ScenarioType
  segmentId : Option String := none
  customVariables : CustomVariables := {}
deriving DecidableEq, Repr

/-- `MonthlyResult` (`src/unnamed/part_005`); `date` is an absolute month index. -/
structure MonthlyResult where
  month : ℕ
  inflow : ℚ
  outflow : ℚ
  netFlow : ℚ
  cumulativeBalance : ℚ
  date : ℤ
deriving DecidableEq, Repr

/-- `SimulationRun` (`src/unnamed/part_005`). -/
structure SimulationRun where
  runNumber : ℕ
  monthlyResults : List MonthlyResult
  finalBalance : ℚ
  minBalance : ℚ
  maxBalance : ℚ
  probabilityNegative : ℚ
  runwayMonths : Option ℤ
deriving DecidableEq, Repr

/-- The `growthRate` component of `BaseParameters`. -/
structure GrowthRate where
  mean : ℚ
  std : ℚ
deriving DecidableEq, Repr

/-- The `seasonality` component of `BaseParameters`. -/
structure Seasonality where
  inflow : List ℚ
  outflow : List ℚ
deriving DecidableEq, Repr

/-- `BaseParameters` (`src/unnamed/part_005`). -/
structure BaseParameters where
  baseInflowMean : ℚ
  baseInflowStd : ℚ
  baseOutflowMean : ℚ
  baseOutflowStd : ℚ
  growthRate : GrowthRate
  seasonality : Seasonality
  startingBalance : ℚ
deriving DecidableEq, Repr

/-- `HistoricalData` (`src/unnamed/part_005`): per-month inflow/outflow totals. -/
structure HistoricalData where
  inflows : List ℚ
  outflows : List ℚ
deriving DecidableEq, Repr

/-- Uninterpreted transcendental primitives of `Math`, taken as parameters. -/
structure MathPrims where
  sqrtFn : ℚ → ℚ
  logFn : ℚ → ℚ
  cosFn : ℚ → ℚ
  sinFn : ℚ → ℚ
  piQ : ℚ

/-- JS `v || d` for an optional number: an absent or zero (falsy) value
falls back to the default `d`. -/
def jsOrInt (v : Option ℤ) (d : ℤ) : ℤ :=
  match v with
  | none => d
  | some x => if x = 0 then d else x

/-- JS `v || d` for an optional rational. -/
def jsOrQ (v : Option ℚ) (d : ℚ) : ℚ :=
  match v with
  | none => d
  | some x => if x = 0 then d else x

/-- JS `Math.round`: round half toward positive infinity. -/
def jsRound (q : ℚ) : ℤ := ⌊q + 1/2⌋

/-- Sum of a list of rationals (JS `reduce((s, v) => s + v, 0)`). -/
def listSum (xs : List ℚ) : ℚ := xs.foldl (· + ·) 0

/-- Mean of a list (`reduce(...) / length`); on the empty list JS yields `NaN`,
modelled as `0/0 = 0` here (no claim touches that case). -/
def listMean (xs : List ℚ) : ℚ := listSum xs / (xs.length : ℚ)

/-- `calculateBaseParameters` (`src/unnamed/part_005`): statistics from the
24-month history, with JS `||` overrides from `customVariables`, fixed growth
defaults and fixed seasonality table. `Math.sqrt` is `mp.sqrtFn`. -/
def calculateBaseParameters (mp : MathPrims) (historicalData : HistoricalData)
    (params : SimulationParameters) : BaseParameters :=
  let inflows := historicalData.inflows
  let outflows := historicalData.outflows
  let baseInflowMean := listMean inflows
  let baseInflowStd :=
    mp.sqrtFn ((inflows.foldl (fun s v => s + (v - baseInflowMean) ^ 2) 0) /
      (inflows.length : ℚ))
  let baseOutflowMean := listMean outflows
  let baseOutflowStd :=
    mp.sqrtFn ((outflows.foldl (fun s v => s + (v - baseOutflowMean) ^ 2) 0) /
      (outflows.length : ℚ))
  let growthRateMean := jsOrQ params.customVariables.growthRateMean (5/100)
  let growthRateStd := jsOrQ params.customVariables.growthRateStd (2/100)
  let seasonality : Seasonality :=
    { inflow := [9/10, 19/20, 11/10, 1, 19/20, 17/20, 8/10, 17/20, 1, 23/20, 13/10, 12/10]
      outflow := [1, 1, 21/20, 1, 19/20, 9/10, 17/20, 9/10, 1, 11/10, 23/20, 11/10] }
  { baseInflowMean := jsOrQ params.customVariables.baseInflowMean baseInflowMean
    baseInflowStd := jsOrQ params.customVariables.baseInflowStd baseInflowStd
    baseOutflowMean := jsOrQ params.customVariables.baseOutflowMean baseOutflowMean
    baseOutflowStd := jsOrQ params.customVariables.baseOutflowStd baseOutflowStd
    growthRate := { mean := growthRateMean, std := growthRateStd }
    seasonality := seasonality
    startingBalance := 500000 }

/-- The JSON body of a simulation POST request (`src/unnamed/part_002`);
`none` models an absent field. -/
structure SimRequestBody where
  numRuns : Option ℤ := none
  timeHorizon : Option ℤ := none
  scenario : Option ScenarioType := none
  segmentId : Option String := none
  customVariables : Option CustomVariables := none
deriving DecidableEq, Repr

/-- Outcome of the POST handler: either an early 400 rejection (with the JSON
error message) before any simulation work, or the simulation engine invoked
with the validated parameters. -/
inductive PostResponse where
  | badRequest (error : String)
  | ok (params : SimulationParameters)
deriving DecidableEq, Repr

/-- The `POST` handler of `src/unnamed/part_002`: builds `SimulationParameters`
with JS `||` defaulting (`numRuns || 500`, `timeHorizon || 12`,
`scenario || "BASE"`), then validates the ranges before running the engine. -/
def POST (body : SimRequestBody) : PostResponse :=
  let params : SimulationParameters :=
    { numRuns := jsOrInt body.numRuns 500
      timeHorizon := jsOrInt body.timeHorizon 12
      scenario := body.scenario.getD ScenarioType.BASE
      segmentId := body.segmentId
      customVariables := body.customVariables.getD {} }
  if params.numRuns < 100 ∨ params.numRuns > 2000 then
    PostResponse.badRequest "Number of runs must be between 100 and 2000"
  else if params.timeHorizon < 1 ∨ params.timeHorizon > 36 then
    PostResponse.badRequest "Time horizon must be between 1 and 36 months"
  else
    PostResponse.ok params

/-- `randomNormal` (`src/unnamed/part_005`): Box–Muller transformation.  The
uniform draws `u`, `v` are the stream values at positions `k`, `k+1` (the
zero-rejection `while` loops are absorbed into the stream, which stands for the
sequence of accepted nonzero uniforms).  `z = sqrt(-2 ln u) * cos(2π v)`. -/
def randomNormal (mp : MathPrims) (g : ℕ → ℚ) (k : ℕ) (mean std : ℚ) : ℚ :=
  let u := g k
  let v := g (k + 1)
  let z := mp.sqrtFn (-2 * mp.logFn u) * mp.cosFn (2 * mp.piQ * v)
  z * std + mean

/-- JS `xs[i] || 1.0` for the seasonality tables: an out-of-range or zero entry
falls back to `1.0`. -/
def seasonalGetD (xs : List ℚ) (i : ℕ) : ℚ :=
  let s := xs.getD i 0
  if s = 0 then 1 else s

/-- `generateRandomInflow` (`src/unnamed/part_005`); consumes the six uniform
draws at positions `k`..`k+5`. -/
def generateRandomInflow (mp : MathPrims) (g : ℕ → ℚ) (k : ℕ) (month : ℕ)
    (baseParams : BaseParameters) (scenario : ScenarioType) : ℚ :=
  let scenarioMultiplier : ℚ :=
    match scenario with
    | ScenarioType.OPTIMISTIC => 12/10
    | ScenarioType.BASE => 1
    | ScenarioType.PESSIMISTIC => 8/10
    | ScenarioType.STRESS_TEST => 6/10
  let growthFactor :=
    (1 + randomNormal mp g k baseParams.growthRate.mean baseParams.growthRate.std) ^ month
  let seasonalFactor := seasonalGetD baseParams.seasonality.inflow (month % 12)
  let randomFactor := randomNormal mp g (k + 2) 1 (1/10)
  let baseAmount := randomNormal mp g (k + 4) baseParams.baseInflowMean baseParams.baseInflowStd
  max 0 (baseAmount * scenarioMultiplier * growthFactor * seasonalFactor * randomFactor)

/-- `generateRandomOutflow` (`src/unnamed/part_005`); consumes the six uniform
draws at positions `k`..`k+5`. -/
def generateRandomOutflow (mp : MathPrims) (g : ℕ → ℚ) (k : ℕ) (month : ℕ)
    (baseParams : BaseParameters) (scenario : ScenarioType) : ℚ :=
  let scenarioMultiplier : ℚ :=
    match scenario with
    | ScenarioType.OPTIMISTIC => 9/10
    | ScenarioType.BASE => 1
    | ScenarioType.PESSIMISTIC => 11/10
    | ScenarioType.STRESS_TEST => 13/10
  let outflowGrowthRate := baseParams.growthRate.mean * (7/10)
  let growthFactor :=
    (1 + randomNormal mp g k outflowGrowthRate baseParams.growthRate.std) ^ month
  let seasonalFactor := seasonalGetD baseParams.seasonality.outflow (month % 12)
  let randomFactor := randomNormal mp g (k + 2) 1 (8/100)
  let baseAmount := randomNormal mp g (k + 4) baseParams.baseOutflowMean baseParams.baseOutflowStd
  max 0 (baseAmount * scenarioMultiplier * growthFactor * seasonalFactor * randomFactor)

/-- The mutable loop state of `runSingleSimulation`; `rand` counts uniform
draws consumed so far (twelve per month: six for the inflow, six for the
outflow). -/
structure SimState where
  monthlyResults : List MonthlyResult
  cumulativeBalance : ℚ
  minBalance : ℚ
  maxBalance : ℚ
  runwayMonths : Option ℤ
  rand : ℕ
deriving DecidableEq, Repr

/-- One iteration of the `for (let month = 1; month <= timeHorizon; month++)`
loop body of `runSingleSimulation`. -/
def simStep (mp : MathPrims) (g : ℕ → ℚ) (baseParams : BaseParameters)
    (scenario : ScenarioType) (now : ℤ) (month : ℕ) (st : SimState) : SimState :=
  let date := now + (month : ℤ)
  let inflow := generateRandomInflow mp g st.rand month baseParams scenario
  let outflow := generateRandomOutflow mp g (st.rand + 6) month baseParams scenario
  let netFlow := inflow - outflow
  let cumulativeBalance := st.cumulativeBalance + netFlow
  let minBalance := min st.minBalance cumulativeBalance
  let maxBalance := max st.maxBalance cumulativeBalance
  let runwayMonths :=
    if cumulativeBalance < 0 ∧ st.runwayMonths = none then some ((month : ℤ) - 1)
    else st.runwayMonths
  { monthlyResults := st.monthlyResults ++
      [{ month := month, inflow := inflow, outflow := outflow, netFlow := netFlow,
         cumulativeBalance := cumulativeBalance, date := date }]
    cumulativeBalance := cumulativeBalance
    minBalance := minBalance
    maxBalance := maxBalance
    runwayMonths := runwayMonths
    rand := st.rand + 12 }

/-- The month loop of `runSingleSimulation`, by recursion on the number of
remaining months; `month` is the 1-based index of the next month. -/
def simLoop (mp : MathPrims) (g : ℕ → ℚ) (baseParams : BaseParameters)
    (scenario : ScenarioType) (now : ℤ) : ℕ → ℕ → SimState → SimState
  | 0, _, st => st
  | rem + 1, month, st =>
      simLoop mp g baseParams scenario now rem (month + 1)
        (simStep mp g baseParams scenario now month st)

/-- The loop state of `runSingleSimulation` before the first iteration: empty
results, all balances at `startingBalance`, `runwayMonths = null`. -/
def initState (baseParams : BaseParameters) : SimState :=
  { monthlyResults := []
    cumulativeBalance := baseParams.startingBalance
    minBalance := baseParams.startingBalance
    maxBalance := baseParams.startingBalance
    runwayMonths := none
    rand := 0 }

/-- `runSingleSimulation` (`src/unnamed/part_005`): run the month loop from the
starting balance, then, if the balance never went negative, extrapolate the
runway from the average burn of negative-net-flow months (`X / Y || 0` is the
rational `X / Y`, which is `0` exactly when `Y = 0`). -/
def runSingleSimulation (mp : MathPrims) (g : ℕ → ℚ) (now : ℤ) (runNumber : ℕ)
    (baseParams : BaseParameters) (params : SimulationParameters) : SimulationRun :=
  let st := simLoop mp g baseParams params.scenario now params.timeHorizon.toNat 1
    (initState baseParams)
  let runwayMonths :=
    match st.runwayMonths with
    | some r => some r
    | none =>
        let negMonths := st.monthlyResults.filter (fun r => r.netFlow < 0)
        let avgBurn := (negMonths.foldl (fun s r => s + |r.netFlow|) 0) / (negMonths.length : ℚ)
        if avgBurn > 0 then
          some ⌊((st.monthlyResults.map (fun r => r.cumulativeBalance)).getLastD 0) / avgBurn⌋
        else none
  { runNumber := runNumber
    monthlyResults := st.monthlyResults
    finalBalance := st.cumulativeBalance
    minBalance := st.minBalance
    maxBalance := st.maxBalance
    probabilityNegative := if st.minBalance < 0 then 1 else 0
    runwayMonths := runwayMonths }

/-- The `statistics` record of `SimulationSummary` (`src/unnamed/part_005`). -/
structure Statistics where
  meanFinalBalance : ℚ
  medianFinalBalance : ℚ
  percentile5 : ℚ
  percentile95 : ℚ
  probabilityNegative : ℚ
  averageRunway : ℚ
  worstCaseRunway : ℤ
  bestCaseRunway : ℤ
deriving DecidableEq, Repr

/-- `calculateStatistics` (`src/unnamed/part_005`): sort the final balances
ascending (`sort((a, b) => a - b)`), read order statistics by truncating index
(`Math.floor(length * p)`), and count the runs whose `minBalance` went
negative. -/
def calculateStatistics (runs : List SimulationRun) : Statistics :=
  let finalBalances := (runs.map (fun r => r.finalBalance)).mergeSort (fun a b => a ≤ b)
  let runways : List ℤ := runs.filterMap (fun r => r.runwayMonths)
  let n := finalBalances.length
  { meanFinalBalance := listSum finalBalances / (n : ℚ)
    medianFinalBalance := finalBalances.getD (n / 2) 0
    percentile5 := finalBalances.getD (Int.toNat ⌊(n : ℚ) * (5/100)⌋) 0
    percentile95 := finalBalances.getD (Int.toNat ⌊(n : ℚ) * (95/100)⌋) 0
    probabilityNegative :=
      ((runs.filter (fun r => r.minBalance < 0)).length : ℚ) / (runs.length : ℚ)
    averageRunway :=
      if runways.length > 0 then
        (runways.foldl (fun s v => s + (v : ℚ)) 0) / (runways.length : ℚ)
      else 0
    worstCaseRunway :=
      match runways with
      | [] => 0
      | h :: t => t.foldl min h
    bestCaseRunway :=
      match runways with
      | [] => 0
      | h :: t => t.foldl max h }

/-- `ForecastResult` (`src/lib/ml-forecasting.ts`); `date` is an absolute month
index (`year * 12 + month` of the JS `Date`).  `predicted` and the bounds are
kept in `ℚ` (they hold integer values whenever the code applied `Math.round`). -/
structure ForecastResult where
  date : ℤ
  predicted : ℚ
  confidence : ℚ
  lowerBound : ℚ
  upperBound : ℚ
  model : ForecastModel
  scenario : ScenarioType
deriving DecidableEq, Repr

/-- Placeholder result for out-of-range indexing (JS would yield `undefined`). -/
def defaultForecastResult : ForecastResult :=
  { date := 0, predicted := 0, confidence := 0, lowerBound := 0, upperBound := 0,
    model := ForecastModel.REGRESSION, scenario := ScenarioType.BASE }

/-- `calculateLinearTrend` (`src/lib/ml-forecasting.ts`): least-squares slope and
intercept over data indexed `1..n` (`data[0] || 0` on short input). -/
def calculateLinearTrend (data : List ℚ) : ℚ × ℚ :=
  let n := data.length
  if n < 2 then (0, data.getD 0 0)
  else
    let sumX : ℚ := (n * (n + 1) : ℕ) / 2
    let sumY := listSum data
    let sumXY := (data.enum.foldl (fun s p => s + ((p.1 : ℚ) + 1) * p.2) 0)
    let sumXX : ℚ := (n * (n + 1) * (2 * n + 1) : ℕ) / 6
    let slope := ((n : ℚ) * sumXY - sumX * sumY) / ((n : ℚ) * sumXX - sumX * sumX)
    let intercept := (sumY - slope * sumX) / (n : ℚ)
    (slope, intercept)

/-- `calculateVariance` (`src/lib/ml-forecasting.ts`): sample variance
(denominator `n - 1`), `0` on fewer than two points. -/
def calculateVariance (data : List ℚ) : ℚ :=
  if data.length < 2 then 0
  else
    let mean := listMean data
    (data.foldl (fun s v => s + (v - mean) ^ 2) 0) / ((data.length : ℚ) - 1)

/-- `getSeasonalFactor` (`src/lib/ml-forecasting.ts`): fixed 12-entry table
indexed by 0-based month, JS `|| 1.0` fallback. -/
def getSeasonalFactor (month : ℕ) : ℚ :=
  seasonalGetD
    [9/10, 19/20, 11/10, 1, 19/20, 17/20, 8/10, 17/20, 1, 23/20, 13/10, 12/10] month

/-- `generateRegressionForecast` (`src/lib/ml-forecasting.ts`), from the grouped
monthly net flows onward (the database query and month grouping supply
`monthlyData`).  `endMonth` is the absolute month index of `endDate`; the
forecast date for step `i` is `endMonth + i`.  Confidence bounds use
`1.96 * sqrt(sample variance) * confidence`. -/
def generateRegressionForecast (mp : MathPrims) (monthlyData : List ℚ)
    (endMonth : ℤ) (horizon : ℕ) (scenario : ScenarioType) : List ForecastResult :=
  let trend := calculateLinearTrend monthlyData
  let multiplier : ℚ :=
    match scenario with
    | ScenarioType.OPTIMISTIC => 23/20
    | ScenarioType.BASE => 1
    | ScenarioType.PESSIMISTIC => 17/20
    | ScenarioType.STRESS_TEST => 7/10
  (List.range horizon).map (fun j =>
    let i : ℕ := j + 1
    let forecastDate := endMonth + (i : ℤ)
    let basePrediction := trend.1 * ((monthlyData.length : ℚ) + (i : ℚ)) + trend.2
    let predicted := basePrediction * multiplier
    let seasonalFactor := getSeasonalFactor (forecastDate % 12).toNat
    let seasonalPredicted := predicted * seasonalFactor
    let variance := calculateVariance monthlyData
    let confidence := max (6/10) (1 - (i : ℚ) * (5/100))
    let bounds := mp.sqrtFn variance * (196/100) * confidence
    { date := forecastDate
      predicted := (jsRound seasonalPredicted : ℚ)
      confidence := confidence
      lowerBound := (jsRound (seasonalPredicted - bounds) : ℚ)
      upperBound := (jsRound (seasonalPredicted + bounds) : ℚ)
      model := ForecastModel.REGRESSION
      scenario := scenario })

/-- `generateARIMAForecast` (`src/lib/ml-forecasting.ts`): regression forecast
with a multiplicative `1 + 0.1 * sin(i/3)` autoregressive effect (no rounding). -/
def generateARIMAForecast (mp : MathPrims) (monthlyData : List ℚ)
    (endMonth : ℤ) (horizon : ℕ) (scenario : ScenarioType) : List ForecastResult :=
  (generateRegressionForecast mp monthlyData endMonth horizon scenario).enum.map
    (fun p =>
      { p.2 with
        predicted := p.2.predicted * (1 + (1/10) * mp.sinFn ((p.1 : ℚ) / 3))
        model := ForecastModel.ARIMA })

/-- `generateProphetForecast` (`src/lib/ml-forecasting.ts`): regression forecast
with weekly/monthly pattern adjustment, rounded, and confidence
`min(confidence * 1.1, 0.95)`. -/
def generateProphetForecast (mp : MathPrims) (monthlyData : List ℚ)
    (endMonth : ℤ) (horizon : ℕ) (scenario : ScenarioType) : List ForecastResult :=
  (generateRegressionForecast mp monthlyData endMonth horizon scenario).enum.map
    (fun p =>
      let weeklyPattern := (5/100) * mp.sinFn (((p.1 : ℚ) * 2 * mp.piQ) / 4)
      let monthlyPattern := getSeasonalFactor (p.2.date % 12).toNat - 1
      let enhancedPrediction := p.2.predicted * (1 + weeklyPattern + monthlyPattern * (2/10))
      { p.2 with
        predicted := (jsRound enhancedPrediction : ℚ)
        model := ForecastModel.PROPHET
        confidence := min (p.2.confidence * (11/10)) (19/20) })

/-- The per-step combination step of `generateEnsembleForecast`
(`src/lib/ml-forecasting.ts`): fixed weights 0.3/0.3/0.4, averaged confidence,
and bounds `1.5 * sqrt(variance of the three predictions around the blend)`. -/
def ensembleCombine (mp : MathPrims) (scenario : ScenarioType)
    (r a p : ForecastResult) : ForecastResult :=
  let combined := r.predicted * (3/10) + a.predicted * (3/10) + p.predicted * (4/10)
  let avgConfidence := (r.confidence + a.confidence + p.confidence) / 3
  let predictions := [r.predicted, a.predicted, p.predicted]
  let variance := (predictions.foldl (fun s q => s + (q - combined) ^ 2) 0) / 3
  let bounds := mp.sqrtFn variance * (3/2)
  { date := r.date
    predicted := (jsRound combined : ℚ)
    confidence := avgConfidence
    lowerBound := (jsRound (combined - bounds) : ℚ)
    upperBound := (jsRound (combined + bounds) : ℚ)
    model := ForecastModel.ENSEMBLE
    scenario := scenario }

/-- `generateEnsembleForecast` (`src/lib/ml-forecasting.ts`): run the three
variants and combine them index-wise (`regression.map((_, i) => ...)`). -/
def generateEnsembleForecast (mp : MathPrims) (monthlyData : List ℚ)
    (endMonth : ℤ) (horizon : ℕ) (scenario : ScenarioType) : List ForecastResult :=
  let regression := generateRegressionForecast mp monthlyData endMonth horizon scenario
  let arima := generateARIMAForecast mp monthlyData endMonth horizon scenario
  let prophet := generateProphetForecast mp monthlyData endMonth horizon scenario
  (List.range regression.length).map (fun i =>
    ensembleCombine mp scenario (regression.getD i defaultForecastResult)
      (arima.getD i defaultForecastResult) (prophet.getD i defaultForecastResult))

/-! ### Concrete instances used by witnesses and counterexamples -/

/-- Transcendental primitives all returning `0` (one admissible instantiation). -/
def mpZero : MathPrims := ⟨fun _ => 0, fun _ => 0, fun _ => 0, fun _ => 0, 0⟩

/-- Primitives with `sin = 1`, used to exhibit a fractional ensemble blend. -/
def mpSinOne : MathPrims := ⟨fun _ => 0, fun _ => 0, fun _ => 0, fun _ => 1, 0⟩

/-- The all-zero uniform stream. -/
def gZero : ℕ → ℚ := fun _ => 0

/-- Base parameters with zero inflow, constant outflow 5 and starting balance 0
(under the all-zero primitives the Box–Muller draw is the mean). -/
def bpNeg : BaseParameters :=
  { baseInflowMean := 0, baseInflowStd := 0, baseOutflowMean := 5, baseOutflowStd := 0,
    growthRate := { mean := 0, std := 0 }, seasonality := { inflow := [], outflow := [] },
    startingBalance := 0 }

/-- One-month simulation parameters. -/
def pOne : SimulationParameters :=
  { numRuns := 500, timeHorizon := 1, scenario := ScenarioType.BASE }

/-- A stream pointwise equal to `gZero` but syntactically different. -/
def gZeroMul : ℕ → ℚ := fun n => 0 * (n : ℚ)

/-- A concrete run with final balance 5. -/
def runA : SimulationRun :=
  { runNumber := 1, monthlyResults := [], finalBalance := 5, minBalance := 0,
    maxBalance := 5, probabilityNegative := 0, runwayMonths := none }

/-- A concrete run with final balance 3. -/
def runB : SimulationRun :=
  { runNumber := 2, monthlyResults := [], finalBalance := 3, minBalance := 0,
    maxBalance := 3, probabilityNegative := 0, runwayMonths := none }

/-! ### Balance trajectories and loop invariants for the simulation engine -/

/-- The cumulative-balance trajectory of a list of monthly records. -/
def cumulativeBalances (rs : List MonthlyResult) : List ℚ :=
  rs.map (fun r => r.cumulativeBalance)

/-- The cumulative balance of a run after `k` months: the starting balance for
`k = 0`, and the `k`-th monthly record's `cumulativeBalance` for `k ≥ 1`. -/
def balanceAt (bp : BaseParameters) (run : SimulationRun) (k : ℕ) : ℚ :=
  (bp.startingBalance :: cumulativeBalances run.monthlyResults).getD k 0

/-- Runway bookkeeping invariant: if `rw` is unset, no monthly balance has gone
negative; if `rw = some j`, then `j` is the 0-based index of the first negative
monthly balance (equivalently, the recorded value is `first crossing month - 1`). -/
def RunwayInv (cums : List ℚ) (rw : Option ℤ) : Prop :=
  match rw with
  | none => ∀ i, i < cums.length → 0 ≤ cums.getD i 0
  | some r => ∃ j : ℕ, r = (j : ℤ) ∧ j < cums.length ∧ cums.getD j 0 < 0 ∧
      ∀ i, i < j → 0 ≤ cums.getD i 0

/-- Min/max bookkeeping invariant of the simulation loop state. -/
def MinMaxInv (start : ℚ) (st : SimState) : Prop :=
  st.minBalance ≤ start ∧ start ≤ st.maxBalance ∧
    ∀ r ∈ st.monthlyResults,
      st.minBalance ≤ r.cumulativeBalance ∧ r.cumulativeBalance ≤ st.maxBalance

lemma runwayInv_append_of_none (L : List ℚ) (c : ℚ)
    (h : ∀ i, i < L.length → 0 ≤ L.getD i 0) :
    RunwayInv (L ++ [c]) (if c < 0 then some (L.length : ℤ) else none) := by
  by_cases hc : c < 0
  · rw [if_pos hc]
    simp only [RunwayInv]
    refine ⟨L.length, rfl, by simp, ?_, ?_⟩
    · rw [List.getD_append_right _ _ _ _ (le_refl _)]
      simpa using hc
    · intro i hi
      rw [List.getD_append _ _ _ _ hi]
      exact h i hi
  · rw [if_neg hc]
    simp only [RunwayInv]
    intro i hi
    have hi' : i < L.length + 1 := by simpa using hi
    rcases Nat.lt_succ_iff_lt_or_eq.mp hi' with hlt | heq
    · rw [List.getD_append _ _ _ _ hlt]
      exact h i hlt
    · subst heq
      rw [List.getD_append_right _ _ _ _ (le_refl _)]
      simpa using not_lt.mp hc

lemma runwayInv_append_of_some (L : List ℚ) (c : ℚ) (r : ℤ)
    (h : RunwayInv L (some r)) : RunwayInv (L ++ [c]) (some r) := by
  simp only [RunwayInv] at h ⊢
  obtain ⟨j, hj, hlen, hneg, hpos⟩ := h
  refine ⟨j, hj, by simp; omega, ?_, ?_⟩
  · rw [List.getD_append _ _ _ _ hlen]
    exact hneg
  · intro i hi
    rw [List.getD_append _ _ _ _ (lt_trans hi hlen)]
    exact hpos i hi

lemma cumulativeBalances_simStep (mp : MathPrims) (g : ℕ → ℚ) (bp : BaseParameters)
    (sc : ScenarioType) (now : ℤ) (month : ℕ) (st : SimState) :
    cumulativeBalances (simStep mp g bp sc now month st).monthlyResults =
      cumulativeBalances st.monthlyResults ++
        [(simStep mp g bp sc now month st).cumulativeBalance] := by
  simp [simStep, cumulativeBalances]

lemma runwayInv_simStep (mp : MathPrims) (g : ℕ → ℚ) (bp : BaseParameters)
    (sc : ScenarioType) (now : ℤ) (month : ℕ) (st : SimState)
    (hmonth : st.monthlyResults.length + 1 = month)
    (hinv : RunwayInv (cumulativeBalances st.monthlyResults) st.runwayMonths) :
    RunwayInv (cumulativeBalances (simStep mp g bp sc now month st).monthlyResults)
      (simStep mp g bp sc now month st).runwayMonths := by
  rw [cumulativeBalances_simStep]
  rcases hst : st.runwayMonths with _ | rv
  · have hlen : ((month : ℤ) - 1) = ((cumulativeBalances st.monthlyResults).length : ℤ) := by
      simp only [cumulativeBalances, List.length_map]
      omega
    have hrw : (simStep mp g bp sc now month st).runwayMonths =
        if (simStep mp g bp sc now month st).cumulativeBalance < 0
        then some ((cumulativeBalances st.monthlyResults).length : ℤ) else none := by
      simp only [simStep, hst]
      rw [hlen]
      simp
    rw [hrw]
    apply runwayInv_append_of_none
    rw [hst] at hinv
    simpa only [RunwayInv] using hinv
  · have hrw : (simStep mp g bp sc now month st).runwayMonths = some rv := by
      simp [simStep, hst]
    rw [hrw]
    apply runwayInv_append_of_some
    rw [hst] at hinv
    exact hinv

lemma simStep_length (mp : MathPrims) (g : ℕ → ℚ) (bp : BaseParameters)
    (sc : ScenarioType) (now : ℤ) (month : ℕ) (st : SimState) :
    (simStep mp g bp sc now month st).monthlyResults.length =
      st.monthlyResults.length + 1 := by
  simp [simStep]

lemma runwayInv_simLoop (mp : MathPrims) (g : ℕ → ℚ) (bp : BaseParameters)
    (sc : ScenarioType) (now : ℤ) (rem : ℕ) :
    ∀ (month : ℕ) (st : SimState),
      st.monthlyResults.length + 1 = month →
      RunwayInv (cumulativeBalances st.monthlyResults) st.runwayMonths →
      RunwayInv (cumulativeBalances (simLoop mp g bp sc now rem month st).monthlyResults)
        (simLoop mp g bp sc now rem month st).runwayMonths := by
  induction rem with
  | zero =>
      intro month st _ hinv
      simpa [simLoop] using hinv
  | succ n ih =>
      intro month st hm hinv
      simp only [simLoop]
      apply ih (month + 1)
      · rw [simStep_length]
        omega
      · exact runwayInv_simStep mp g bp sc now month st hm hinv

lemma minMaxInv_simStep (mp : MathPrims) (g : ℕ → ℚ) (bp : BaseParameters)
    (sc : ScenarioType) (now : ℤ) (month : ℕ) (st : SimState) (start : ℚ)
    (h : MinMaxInv start st) : MinMaxInv start (simStep mp g bp sc now month st) := by
  obtain ⟨h1, h2, h3⟩ := h
  refine ⟨?_, ?_, ?_⟩
  · exact le_trans (by simp [simStep]) h1
  · exact le_trans h2 (by simp [simStep])
  · intro r hr
    have hmem : r ∈ st.monthlyResults ∨
        r.cumulativeBalance = (simStep mp g bp sc now month st).cumulativeBalance := by
      simp only [simStep] at hr
      rcases List.mem_append.mp hr with hold | hnew
      · exact Or.inl hold
      · right
        rcases List.mem_singleton.mp hnew with rfl
        rfl
    rcases hmem with hold | hnew
    · obtain ⟨hlo, hhi⟩ := h3 r hold
      exact ⟨le_trans (by simp [simStep]) hlo, le_trans hhi (by simp [simStep])⟩
    · rw [hnew]
      constructor
      · simp only [simStep]
        exact min_le_right _ _
      · simp only [simStep]
        exact le_max_right _ _

lemma minMaxInv_simLoop (mp : MathPrims) (g : ℕ → ℚ) (bp : BaseParameters)
    (sc : ScenarioType) (now : ℤ) (rem : ℕ) :
    ∀ (month : ℕ) (st : SimState) (start : ℚ),
      MinMaxInv start st → MinMaxInv start (simLoop mp g bp sc now rem month st) := by
  induction rem with
  | zero =>
      intro month st start h
      simpa [simLoop] using h
  | succ n ih =>
      intro month st start h
      simp only [simLoop]
      exact ih (month + 1) _ start (minMaxInv_simStep mp g bp sc now month st start h)

lemma runSingleSimulation_monthlyResults (mp : MathPrims) (g : ℕ → ℚ) (now : ℤ)
    (rn : ℕ) (bp : BaseParameters) (p : SimulationParameters) :
    (runSingleSimulation mp g now rn bp p).monthlyResults =
      (simLoop mp g bp p.scenario now p.timeHorizon.toNat 1 (initState bp)).monthlyResults :=
  rfl

lemma runSingleSimulation_minBalance (mp : MathPrims) (g : ℕ → ℚ) (now : ℤ)
    (rn : ℕ) (bp : BaseParameters) (p : SimulationParameters) :
    (runSingleSimulation mp g now rn bp p).minBalance =
      (simLoop mp g bp p.scenario now p.timeHorizon.toNat 1 (initState bp)).minBalance :=
  rfl

lemma runSingleSimulation_maxBalance (mp : MathPrims) (g : ℕ → ℚ) (now : ℤ)
    (rn : ℕ) (bp : BaseParameters) (p : SimulationParameters) :
    (runSingleSimulation mp g now rn bp p).maxBalance =
      (simLoop mp g bp p.scenario now p.timeHorizon.toNat 1 (initState bp)).maxBalance :=
  rfl

lemma runSingleSimulation_runwayMonths_of_some (mp : MathPrims) (g : ℕ → ℚ) (now : ℤ)
    (rn : ℕ) (bp : BaseParameters) (p : SimulationParameters) (r : ℤ)
    (h : (simLoop mp g bp p.scenario now p.timeHorizon.toNat 1 (initState bp)).runwayMonths =
      some r) :
    (runSingleSimulation mp g now rn bp p).runwayMonths = some r := by
  unfold runSingleSimulation
  dsimp only
  rw [h]

/-! ### Claims about the simulation engine trajectories (C1, C2, C3) -/

/-- Claim C1: in every run of `runSingleSimulation` whose cumulative balance
goes below zero at some month (starting from a non-negative starting balance,
as the engine always does), `runwayMonths` is non-null and records the last
month before the first negative crossing: the balance at month `runwayMonths`
is `≥ 0`, the balance at month `runwayMonths + 1` is `< 0`, and every month up
to `runwayMonths` is non-negative, so a later recovery cannot move it. -/
theorem claim1_runway_first_crossing (mp : MathPrims) (g : ℕ → ℚ) (now : ℤ) (rn : ℕ)
    (bp : BaseParameters) (p : SimulationParameters) (hstart : 0 ≤ bp.startingBalance)
    (hneg : ∃ r ∈ (runSingleSimulation mp g now rn bp p).monthlyResults,
      r.cumulativeBalance < 0) :
    ∃ j : ℕ, (runSingleSimulation mp g now rn bp p).runwayMonths = some (j : ℤ) ∧
      0 ≤ balanceAt bp (runSingleSimulation mp g now rn bp p) j ∧
      balanceAt bp (runSingleSimulation mp g now rn bp p) (j + 1) < 0 ∧
      ∀ k, k ≤ j → 0 ≤ balanceAt bp (runSingleSimulation mp g now rn bp p) k := by
  have h0 : RunwayInv (cumulativeBalances (initState bp).monthlyResults)
      (initState bp).runwayMonths := by
    simp only [initState, cumulativeBalances, List.map_nil, RunwayInv]
    intro i hi
    simp at hi
  have hinv := runwayInv_simLoop mp g bp p.scenario now p.timeHorizon.toNat 1
    (initState bp) (by simp [initState]) h0
  rcases hrw : (simLoop mp g bp p.scenario now p.timeHorizon.toNat 1
      (initState bp)).runwayMonths with _ | rv
  · exfalso
    rw [hrw] at hinv
    simp only [RunwayInv] at hinv
    obtain ⟨r, hr, hlt⟩ := hneg
    rw [runSingleSimulation_monthlyResults] at hr
    have hmem : r.cumulativeBalance ∈ cumulativeBalances
        (simLoop mp g bp p.scenario now p.timeHorizon.toNat 1 (initState bp)).monthlyResults :=
      List.mem_map_of_mem _ hr
    obtain ⟨i, hi, hEq⟩ := List.mem_iff_getElem.mp hmem
    have hge := hinv i hi
    rw [List.getD_eq_getElem _ _ hi, hEq] at hge
    exact absurd hlt (not_lt.mpr hge)
  · rw [hrw] at hinv
    simp only [RunwayInv] at hinv
    obtain ⟨j, hj, hjlen, hjneg, hjpos⟩ := hinv
    subst hj
    refine ⟨j, runSingleSimulation_runwayMonths_of_some mp g now rn bp p _ hrw, ?_, ?_, ?_⟩
    · cases j with
      | zero => simpa [balanceAt] using hstart
      | succ i =>
          simpa [balanceAt, runSingleSimulation_monthlyResults, List.getD_cons_succ]
            using hjpos i (Nat.lt_succ_self i)
    · simpa [balanceAt, runSingleSimulation_monthlyResults, List.getD_cons_succ] using hjneg
    · intro k hk
      cases k with
      | zero => simpa [balanceAt] using hstart
      | succ i =>
          have hij : i < j := by omega
          simpa [balanceAt, runSingleSimulation_monthlyResults, List.getD_cons_succ]
            using hjpos i hij

/-- Claim C1 witness: with zero inflow and outflow 5 from a zero starting
balance, the balance first goes negative at month 1 and the recorded runway
is month 0. -/
theorem claim1_runway_first_crossing_witness :
    (0 : ℚ) ≤ bpNeg.startingBalance ∧
    (∃ r ∈ (runSingleSimulation mpZero gZero 0 1 bpNeg pOne).monthlyResults,
      r.cumulativeBalance < 0) ∧
    ∃ j : ℕ, (runSingleSimulation mpZero gZero 0 1 bpNeg pOne).runwayMonths = some (j : ℤ) ∧
      0 ≤ balanceAt bpNeg (runSingleSimulation mpZero gZero 0 1 bpNeg pOne) j ∧
      balanceAt bpNeg (runSingleSimulation mpZero gZero 0 1 bpNeg pOne) (j + 1) < 0 ∧
      ∀ k, k ≤ j → 0 ≤ balanceAt bpNeg (runSingleSimulation mpZero gZero 0 1 bpNeg pOne) k :=
  ⟨by decide, by with_unfolding_all decide,
    claim1_runway_first_crossing mpZero gZero 0 1 bpNeg pOne (by decide)
      (by with_unfolding_all decide)⟩

/-- Claim C2: for every run of `runSingleSimulation`, every monthly record's
cumulative balance lies between `minBalance` and `maxBalance`, and so does the
starting balance. -/
theorem claim2_minmax_envelope (mp : MathPrims) (g : ℕ → ℚ) (now : ℤ) (rn : ℕ)
    (bp : BaseParameters) (p : SimulationParameters) :
    ((runSingleSimulation mp g now rn bp p).minBalance ≤ bp.startingBalance ∧
      bp.startingBalance ≤ (runSingleSimulation mp g now rn bp p).maxBalance) ∧
    ∀ r ∈ (runSingleSimulation mp g now rn bp p).monthlyResults,
      (runSingleSimulation mp g now rn bp p).minBalance ≤ r.cumulativeBalance ∧
      r.cumulativeBalance ≤ (runSingleSimulation mp g now rn bp p).maxBalance := by
  have h : MinMaxInv bp.startingBalance
      (simLoop mp g bp p.scenario now p.timeHorizon.toNat 1 (initState bp)) := by
    apply minMaxInv_simLoop
    simp only [MinMaxInv, initState]
    refine ⟨le_refl _, le_refl _, ?_⟩
    intro r hr
    simp at hr
  simp only [MinMaxInv] at h
  obtain ⟨h1, h2, h3⟩ := h
  refine ⟨⟨?_, ?_⟩, ?_⟩
  · rw [runSingleSimulation_minBalance]; exact h1
  · rw [runSingleSimulation_maxBalance]; exact h2
  · intro r hr
    rw [runSingleSimulation_monthlyResults] at hr
    rw [runSingleSimulation_minBalance, runSingleSimulation_maxBalance]
    exact h3 r hr

/-- Claim C2 witness: the envelope holds at the concrete one-month run. -/
theorem claim2_minmax_envelope_witness :
    (runSingleSimulation mpZero gZero 0 1 bpNeg pOne).minBalance ≤
      ({ month := 1, inflow := 0, outflow := 5, netFlow := -5,
         cumulativeBalance := -5, date := 1 } : MonthlyResult).cumulativeBalance ∧
    ({ month := 1, inflow := 0, outflow := 5, netFlow := -5,
       cumulativeBalance := -5, date := 1 } : MonthlyResult).cumulativeBalance ≤
      (runSingleSimulation mpZero gZero 0 1 bpNeg pOne).maxBalance :=
  (claim2_minmax_envelope mpZero gZero 0 1 bpNeg pOne).2
    { month := 1, inflow := 0, outflow := 5, netFlow := -5,
      cumulativeBalance := -5, date := 1 } (by with_unfolding_all decide)

/-- Claim C3: each run's `probabilityNegative` is exactly the indicator of
`minBalance < 0`, and the aggregate `probabilityNegative` of a non-empty run
collection is exactly `(count of runs with minBalance < 0) / N`. -/
theorem claim3_probability_negative :
    (∀ (mp : MathPrims) (g : ℕ → ℚ) (now : ℤ) (rn : ℕ) (bp : BaseParameters)
      (p : SimulationParameters),
      (runSingleSimulation mp g now rn bp p).probabilityNegative =
        if (runSingleSimulation mp g now rn bp p).minBalance < 0 then 1 else 0)
    ∧ (∀ runs : List SimulationRun, runs ≠ [] →
      (calculateStatistics runs).probabilityNegative =
        ((runs.filter (fun r => r.minBalance < 0)).length : ℚ) / (runs.length : ℚ)) := by
  constructor
  · intro mp g now rn bp p
    rfl
  · intro runs _
    rfl

/-- Claim C3 witness: a singleton collection made of the concrete negative run
has aggregate `probabilityNegative` equal to `1 / 1`. -/
theorem claim3_probability_negative_witness :
    (calculateStatistics [runSingleSimulation mpZero gZero 0 1 bpNeg pOne]).probabilityNegative =
      (([runSingleSimulation mpZero gZero 0 1 bpNeg pOne].filter
          (fun r => r.minBalance < 0)).length : ℚ) /
        (([runSingleSimulation mpZero gZero 0 1 bpNeg pOne] : List SimulationRun).length : ℚ) :=
  claim3_probability_negative.2 [runSingleSimulation mpZero gZero 0 1 bpNeg pOne] (by simp)

/-! ### Claims about the POST handler (C7, C10) -/

/-- Claim C7 counterexample: a request with `numRuns = 0` has its run count
outside `[100, 2000]`, yet the handler does not reject it: JS `||` defaulting
replaces the falsy `0` with `500` before validation, and the simulation engine
is invoked. -/
theorem claim7_counterexample :
    POST { numRuns := some 0, timeHorizon := some 12 } =
      PostResponse.ok
        { numRuns := 500, timeHorizon := 12, scenario := ScenarioType.BASE,
          segmentId := none, customVariables := {} } ∧ (0 : ℤ) < 100 := by
  constructor
  · rfl
  · decide

/-- Claim C7 (amended): the handler rejects, before any simulation computation,
every request whose *defaulted* `numRuns` (the body value if truthy, else 500)
lies outside `[100, 2000]`, and every request whose defaulted `timeHorizon`
lies outside `[1, 36]`, with the 400 error bodies; the engine is only ever
invoked with in-range parameters; defaulted `numRuns` of 100 and 2000 are
accepted while 99 and 2001 are rejected. -/
theorem claim7_validation :
    (∀ b : SimRequestBody,
      jsOrInt b.numRuns 500 < 100 ∨ jsOrInt b.numRuns 500 > 2000 →
      POST b = PostResponse.badRequest "Number of runs must be between 100 and 2000")
    ∧ (∀ b : SimRequestBody,
      ¬(jsOrInt b.numRuns 500 < 100 ∨ jsOrInt b.numRuns 500 > 2000) →
      (jsOrInt b.timeHorizon 12 < 1 ∨ jsOrInt b.timeHorizon 12 > 36) →
      POST b = PostResponse.badRequest "Time horizon must be between 1 and 36 months")
    ∧ (∀ b : SimRequestBody, ∀ p : SimulationParameters, POST b = PostResponse.ok p →
      100 ≤ p.numRuns ∧ p.numRuns ≤ 2000 ∧ 1 ≤ p.timeHorizon ∧ p.timeHorizon ≤ 36)
    ∧ POST { numRuns := some 100 } = PostResponse.ok
        { numRuns := 100, timeHorizon := 12, scenario := ScenarioType.BASE,
          segmentId := none, customVariables := {} }
    ∧ POST { numRuns := some 2000 } = PostResponse.ok
        { numRuns := 2000, timeHorizon := 12, scenario := ScenarioType.BASE,
          segmentId := none, customVariables := {} }
    ∧ POST { numRuns := some 99 } =
        PostResponse.badRequest "Number of runs must be between 100 and 2000"
    ∧ POST { numRuns := some 2001 } =
        PostResponse.badRequest "Number of runs must be between 100 and 2000" := by
  refine ⟨?_, ?_, ?_, rfl, rfl, rfl, rfl⟩
  · intro b h
    unfold POST
    rw [if_pos h]
  · intro b h1 h2
    unfold POST
    rw [if_neg h1, if_pos h2]
  · intro b p h
    unfold POST at h
    dsimp only at h
    by_cases h1 : jsOrInt b.numRuns 500 < 100 ∨ jsOrInt b.numRuns 500 > 2000
    · rw [if_pos h1] at h; exact absurd h (by simp)
    · rw [if_neg h1] at h
      by_cases h2 : jsOrInt b.timeHorizon 12 < 1 ∨ jsOrInt b.timeHorizon 12 > 36
      · rw [if_pos h2] at h; exact absurd h (by simp)
      · rw [if_neg h2] at h
        injection h with hp
        subst hp
        dsimp only
        omega

/-- Claim C7 amended witness: a defaulted run count of 50 is rejected. -/
theorem claim7_validation_witness :
    POST { numRuns := some 50 } =
      PostResponse.badRequest "Number of runs must be between 100 and 2000" :=
  claim7_validation.1 { numRuns := some 50 } (by decide)

/-- Claim C10: a missing or falsy (`0`) `numRuns` is replaced by 500 and a
missing or falsy `timeHorizon` by 12 before range validation, so such requests
are not rejected as out of range but run with the defaulted values. -/
theorem claim10_falsy_defaults :
    (∀ b : SimRequestBody, b.numRuns = none ∨ b.numRuns = some 0 →
      jsOrInt b.numRuns 500 = 500)
    ∧ (∀ b : SimRequestBody, b.timeHorizon = none ∨ b.timeHorizon = some 0 →
      jsOrInt b.timeHorizon 12 = 12)
    ∧ (∀ b : SimRequestBody, b.numRuns = none ∨ b.numRuns = some 0 →
      1 ≤ jsOrInt b.timeHorizon 12 → jsOrInt b.timeHorizon 12 ≤ 36 →
      POST b = PostResponse.ok
        { numRuns := 500, timeHorizon := jsOrInt b.timeHorizon 12,
          scenario := b.scenario.getD ScenarioType.BASE, segmentId := b.segmentId,
          customVariables := b.customVariables.getD {} })
    ∧ (∀ b : SimRequestBody, b.timeHorizon = none ∨ b.timeHorizon = some 0 →
      100 ≤ jsOrInt b.numRuns 500 → jsOrInt b.numRuns 500 ≤ 2000 →
      POST b = PostResponse.ok
        { numRuns := jsOrInt b.numRuns 500, timeHorizon := 12,
          scenario := b.scenario.getD ScenarioType.BASE, segmentId := b.segmentId,
          customVariables := b.customVariables.getD {} }) := by
  have hn : ∀ b : SimRequestBody, b.numRuns = none ∨ b.numRuns = some 0 →
      jsOrInt b.numRuns 500 = 500 := by
    rintro b (h | h) <;> simp [jsOrInt, h]
  have ht : ∀ b : SimRequestBody, b.timeHorizon = none ∨ b.timeHorizon = some 0 →
      jsOrInt b.timeHorizon 12 = 12 := by
    rintro b (h | h) <;> simp [jsOrInt, h]
  refine ⟨hn, ht, ?_, ?_⟩
  · intro b h h1 h2
    unfold POST
    dsimp only
    rw [hn b h, if_neg (by omega), if_neg (by omega)]
  · intro b h h1 h2
    unfold POST
    dsimp only
    rw [ht b h, if_neg (by omega), if_neg (by omega)]

/-- Claim C10 witness: `numRuns = 0` and `timeHorizon = 0` run with the
defaults 500 and 12. -/
theorem claim10_falsy_defaults_witness :
    POST { numRuns := some 0, timeHorizon := some 0 } =
      PostResponse.ok
        { numRuns := 500, timeHorizon := 12, scenario := ScenarioType.BASE,
          segmentId := none, customVariables := {} } :=
  claim10_falsy_defaults.2.2.1 { numRuns := some 0, timeHorizon := some 0 }
    (Or.inr rfl) (by decide) (by decide)

/-! ### Claims about base-parameter estimation (C8) and determinism (C9) -/

/-- Claim C8 counterexample: an explicitly supplied `baseInflowMean` override of
`0` does not replace the computed statistic (JS `||` treats `0` as falsy): with
a one-month history of inflow 10 the resulting mean is the computed 10, not the
supplied 0. -/
theorem claim8_counterexample :
    (calculateBaseParameters mpZero { inflows := [10], outflows := [10] }
      { numRuns := 500, timeHorizon := 12, scenario := ScenarioType.BASE,
        customVariables := { baseInflowMean := some 0 } }).baseInflowMean = 10 ∧
    (10 : ℚ) ≠ 0 := by
  constructor
  · with_unfolding_all decide
  · norm_num

/-- Claim C8 (amended): any explicitly supplied *non-zero* `customVariables`
override replaces the corresponding computed statistic (a zero override is
falsy for JS `||` and is ignored), and when the growth-rate overrides are
absent the growth rate defaults to mean `0.05` and standard deviation `0.02`. -/
theorem claim8_overrides (mp : MathPrims) (hd : HistoricalData)
    (p : SimulationParameters) :
    (∀ v : ℚ, p.customVariables.baseInflowMean = some v → v ≠ 0 →
      (calculateBaseParameters mp hd p).baseInflowMean = v) ∧
    (∀ v : ℚ, p.customVariables.baseInflowStd = some v → v ≠ 0 →
      (calculateBaseParameters mp hd p).baseInflowStd = v) ∧
    (∀ v : ℚ, p.customVariables.baseOutflowMean = some v → v ≠ 0 →
      (calculateBaseParameters mp hd p).baseOutflowMean = v) ∧
    (∀ v : ℚ, p.customVariables.baseOutflowStd = some v → v ≠ 0 →
      (calculateBaseParameters mp hd p).baseOutflowStd = v) ∧
    (∀ v : ℚ, p.customVariables.growthRateMean = some v → v ≠ 0 →
      (calculateBaseParameters mp hd p).growthRate.mean = v) ∧
    (∀ v : ℚ, p.customVariables.growthRateStd = some v → v ≠ 0 →
      (calculateBaseParameters mp hd p).growthRate.std = v) ∧
    (p.customVariables.growthRateMean = none →
      (calculateBaseParameters mp hd p).growthRate.mean = 5/100) ∧
    (p.customVariables.growthRateStd = none →
      (calculateBaseParameters mp hd p).growthRate.std = 2/100) := by
  refine ⟨?_, ?_, ?_, ?_, ?_, ?_, ?_, ?_⟩
  · intro v hv hne; simp [calculateBaseParameters, jsOrQ, hv, hne]
  · intro v hv hne; simp [calculateBaseParameters, jsOrQ, hv, hne]
  · intro v hv hne; simp [calculateBaseParameters, jsOrQ, hv, hne]
  · intro v hv hne; simp [calculateBaseParameters, jsOrQ, hv, hne]
  · intro v hv hne; simp [calculateBaseParameters, jsOrQ, hv, hne]
  · intro v hv hne; simp [calculateBaseParameters, jsOrQ, hv, hne]
  · intro hv; simp [calculateBaseParameters, jsOrQ, hv]
  · intro hv; simp [calculateBaseParameters, jsOrQ, hv]

/-- Claim C8 amended witness: a non-zero override of 3 replaces the computed
inflow mean, and the growth mean defaults to `0.05` when absent. -/
theorem claim8_overrides_witness :
    (calculateBaseParameters mpZero { inflows := [10], outflows := [10] }
      { numRuns := 500, timeHorizon := 12, scenario := ScenarioType.BASE,
        customVariables := { baseInflowMean := some 3 } }).baseInflowMean = 3 ∧
    (calculateBaseParameters mpZero { inflows := [10], outflows := [10] }
      { numRuns := 500, timeHorizon := 12, scenario := ScenarioType.BASE,
        customVariables := { baseInflowMean := some 3 } }).growthRate.mean = 5/100 :=
  ⟨(claim8_overrides mpZero { inflows := [10], outflows := [10] }
      { numRuns := 500, timeHorizon := 12, scenario := ScenarioType.BASE,
        customVariables := { baseInflowMean := some 3 } }).1 3 rfl (by norm_num),
   (claim8_overrides mpZero { inflows := [10], outflows := [10] }
      { numRuns := 500, timeHorizon := 12, scenario := ScenarioType.BASE,
        customVariables := { baseInflowMean := some 3 } }).2.2.2.2.2.2.1 rfl⟩

/-- Claim C9 counterexample: two executions with the same run number, base
parameters, simulation parameters and the same random stream, but different
ambient clock values, produce different results: the `date` field of the
monthly records comes from the wall clock, which the claim does not fix. -/
theorem claim9_counterexample :
    runSingleSimulation mpZero gZero 0 1 bpNeg pOne ≠
      runSingleSimulation mpZero gZero 1 1 bpNeg pOne := by
  with_unfolding_all decide

/-- Claim C9 (amended): fixing additionally the ambient start date, a run is
fully deterministic and reproducible: with the same run number, base
parameters, simulation parameters, start date and a pointwise-equal random
stream, the two `SimulationRun` results are identical, including the full list
of monthly records. -/
theorem claim9_determinism (mp : MathPrims) (g1 g2 : ℕ → ℚ) (now : ℤ) (rn : ℕ)
    (bp : BaseParameters) (p : SimulationParameters) (h : ∀ n, g1 n = g2 n) :
    runSingleSimulation mp g1 now rn bp p = runSingleSimulation mp g2 now rn bp p ∧
    (runSingleSimulation mp g1 now rn bp p).monthlyResults =
      (runSingleSimulation mp g2 now rn bp p).monthlyResults := by
  have hg : g1 = g2 := funext h
  rw [hg]
  exact ⟨rfl, rfl⟩

/-- Claim C9 amended witness: two syntactically different but pointwise-equal
streams give identical runs. -/
theorem claim9_determinism_witness :
    runSingleSimulation mpZero gZero 0 1 bpNeg pOne =
      runSingleSimulation mpZero gZeroMul 0 1 bpNeg pOne :=
  (claim9_determinism mpZero gZero gZeroMul 0 1 bpNeg pOne
    (fun n => by simp [gZero, gZeroMul])).1

/-! ### Claims about the forecasting utility (C4, C5, C6) -/

lemma getD_range_map {α : Type} (f : ℕ → α) (n i : ℕ) (d : α) (h : i < n) :
    ((List.range n).map f).getD i d = f i := by
  rw [List.getD_eq_getElem _ _ (by simpa using h), List.getElem_map, List.getElem_range]

lemma length_generateRegressionForecast (mp : MathPrims) (monthlyData : List ℚ)
    (endMonth : ℤ) (horizon : ℕ) (scenario : ScenarioType) :
    (generateRegressionForecast mp monthlyData endMonth horizon scenario).length =
      horizon := by
  simp [generateRegressionForecast]

lemma regression_confidence_getD (mp : MathPrims) (monthlyData : List ℚ)
    (endMonth : ℤ) (horizon : ℕ) (scenario : ScenarioType) (j : ℕ) (hj : j < horizon) :
    ((generateRegressionForecast mp monthlyData endMonth horizon scenario).getD j
        defaultForecastResult).confidence =
      max (6/10) (1 - ((j + 1 : ℕ) : ℚ) * (5/100)) := by
  unfold generateRegressionForecast
  rw [getD_range_map _ _ _ _ hj]

/-- Claim C6: in the base regression forecast, the confidence of the forecast
at step `i` (1-based, list index `i - 1`) equals `max(0.6, 1 - 0.05 * i)`;
consequently confidence is non-increasing in the step index and never drops
below `0.6`. -/
theorem claim6_confidence_decay (mp : MathPrims) (monthlyData : List ℚ)
    (endMonth : ℤ) (horizon : ℕ) (scenario : ScenarioType) (i : ℕ)
    (h1 : 1 ≤ i) (h2 : i ≤ horizon) :
    ((generateRegressionForecast mp monthlyData endMonth horizon scenario).getD (i - 1)
        defaultForecastResult).confidence = max (6/10) (1 - (i : ℚ) * (5/100)) ∧
    (∀ j : ℕ, i ≤ j → j ≤ horizon →
      ((generateRegressionForecast mp monthlyData endMonth horizon scenario).getD (j - 1)
          defaultForecastResult).confidence ≤
        ((generateRegressionForecast mp monthlyData endMonth horizon scenario).getD (i - 1)
            defaultForecastResult).confidence) ∧
    (6/10 : ℚ) ≤ ((generateRegressionForecast mp monthlyData endMonth horizon
        scenario).getD (i - 1) defaultForecastResult).confidence := by
  have key : ∀ k : ℕ, 1 ≤ k → k ≤ horizon →
      ((generateRegressionForecast mp monthlyData endMonth horizon scenario).getD (k - 1)
          defaultForecastResult).confidence = max (6/10) (1 - (k : ℚ) * (5/100)) := by
    intro k hk1 hk2
    rw [regression_confidence_getD mp monthlyData endMonth horizon scenario (k - 1)
      (by omega)]
    congr 2
    push_cast [Nat.sub_add_cancel hk1]
    ring
  refine ⟨key i h1 h2, ?_, ?_⟩
  · intro j hij hjh
    rw [key i h1 h2, key j (le_trans h1 hij) hjh]
    apply max_le_max (le_refl _)
    have hc : (i : ℚ) ≤ (j : ℚ) := by exact_mod_cast hij
    nlinarith
  · rw [key i h1 h2]
    exact le_max_left _ _

/-- Claim C6 witness: at horizon 2 and step 1 the confidence is
`max(0.6, 1 - 0.05) = 0.95`, bounding the later step from above. -/
theorem claim6_confidence_decay_witness :
    ((generateRegressionForecast mpZero [] 0 2 ScenarioType.BASE).getD (1 - 1)
        defaultForecastResult).confidence = max (6/10) (1 - ((1 : ℕ) : ℚ) * (5/100)) ∧
    (∀ j : ℕ, 1 ≤ j → j ≤ 2 →
      ((generateRegressionForecast mpZero [] 0 2 ScenarioType.BASE).getD (j - 1)
          defaultForecastResult).confidence ≤
        ((generateRegressionForecast mpZero [] 0 2 ScenarioType.BASE).getD (1 - 1)
            defaultForecastResult).confidence) ∧
    (6/10 : ℚ) ≤ ((generateRegressionForecast mpZero [] 0 2 ScenarioType.BASE).getD
        (1 - 1) defaultForecastResult).confidence :=
  claim6_confidence_decay mpZero [] 0 2 ScenarioType.BASE 1 (by decide) (by decide)

/-- Claim C5 counterexample: the ensemble's stored `predicted` value is the
weighted blend *rounded* (`Math.round`), so it can differ from the exact
weighted sum: at this input the blend is `19.97` but the stored value is `20`. -/
theorem claim5_counterexample :
    ((generateEnsembleForecast mpSinOne [0, 10] 0 1 ScenarioType.BASE).getD 0
        defaultForecastResult).predicted ≠
      ((generateRegressionForecast mpSinOne [0, 10] 0 1 ScenarioType.BASE).getD 0
          defaultForecastResult).predicted * (3/10) +
        ((generateARIMAForecast mpSinOne [0, 10] 0 1 ScenarioType.BASE).getD 0
            defaultForecastResult).predicted * (3/10) +
        ((generateProphetForecast mpSinOne [0, 10] 0 1 ScenarioType.BASE).getD 0
            defaultForecastResult).predicted * (4/10) := by
  with_unfolding_all decide

/-- Claim C5 (amended): each ensemble step is the per-index combination of the
three model forecasts: its `predicted` value is `Math.round` of
`0.3 * regression + 0.3 * arima + 0.4 * prophet` (weights summing to 1), its
confidence is the arithmetic mean of the three confidences, and its bounds are
`round(blend ∓ 1.5 * sqrt(variance of the three predictions around the blend))`
— a function of the three model predictions only, not of the underlying data
variance. -/
theorem claim5_ensemble_blend (mp : MathPrims) (monthlyData : List ℚ)
    (endMonth : ℤ) (horizon : ℕ) (scenario : ScenarioType) (i : ℕ)
    (hi : i < horizon) :
    (generateEnsembleForecast mp monthlyData endMonth horizon scenario).getD i
        defaultForecastResult =
      ensembleCombine mp scenario
        ((generateRegressionForecast mp monthlyData endMonth horizon scenario).getD i
          defaultForecastResult)
        ((generateARIMAForecast mp monthlyData endMonth horizon scenario).getD i
          defaultForecastResult)
        ((generateProphetForecast mp monthlyData endMonth horizon scenario).getD i
          defaultForecastResult) ∧
    (∀ r a p : ForecastResult, (ensembleCombine mp scenario r a p).predicted =
      (jsRound (r.predicted * (3/10) + a.predicted * (3/10) + p.predicted * (4/10)) : ℚ)) ∧
    (∀ r a p : ForecastResult, (ensembleCombine mp scenario r a p).confidence =
      (r.confidence + a.confidence + p.confidence) / 3) ∧
    ((3 : ℚ)/10 + 3/10 + 4/10 = 1) ∧
    (∀ r a p : ForecastResult, (ensembleCombine mp scenario r a p).lowerBound =
      (jsRound ((r.predicted * (3/10) + a.predicted * (3/10) + p.predicted * (4/10)) -
        mp.sqrtFn (([r.predicted, a.predicted, p.predicted].foldl
            (fun s q => s + (q - (r.predicted * (3/10) + a.predicted * (3/10) +
              p.predicted * (4/10))) ^ 2) 0) / 3) * (3/2)) : ℚ)) ∧
    (∀ r a p : ForecastResult, (ensembleCombine mp scenario r a p).upperBound =
      (jsRound ((r.predicted * (3/10) + a.predicted * (3/10) + p.predicted * (4/10)) +
        mp.sqrtFn (([r.predicted, a.predicted, p.predicted].foldl
            (fun s q => s + (q - (r.predicted * (3/10) + a.predicted * (3/10) +
              p.predicted * (4/10))) ^ 2) 0) / 3) * (3/2)) : ℚ)) := by
  refine ⟨?_, fun r a p => rfl, fun r a p => rfl, by norm_num,
    fun r a p => rfl, fun r a p => rfl⟩
  unfold generateEnsembleForecast
  dsimp only
  rw [getD_range_map _ _ _ _
    (by rw [length_generateRegressionForecast]; exact hi)]

/-- Claim C5 amended witness: the combination identity at a concrete input. -/
theorem claim5_ensemble_blend_witness :
    (generateEnsembleForecast mpZero [] 0 1 ScenarioType.BASE).getD 0
        defaultForecastResult =
      ensembleCombine mpZero ScenarioType.BASE
        ((generateRegressionForecast mpZero [] 0 1 ScenarioType.BASE).getD 0
          defaultForecastResult)
        ((generateARIMAForecast mpZero [] 0 1 ScenarioType.BASE).getD 0
          defaultForecastResult)
        ((generateProphetForecast mpZero [] 0 1 ScenarioType.BASE).getD 0
          defaultForecastResult) :=
  (claim5_ensemble_blend mpZero [] 0 1 ScenarioType.BASE 0 (by decide)).1

/-- Claim C4: for a non-empty run collection, `calculateStatistics` reads its
percentile statistics off the ascending-sorted list of final balances by
truncating index without interpolation: `percentile5` at `⌊0.05 n⌋`,
`percentile95` at `⌊0.95 n⌋`, and the median at `⌊n / 2⌋`, where `s` is any
sorted permutation of the final balances. -/
theorem claim4_percentile_indexing (runs : List SimulationRun) (hne : runs ≠ [])
    (s : List ℚ) (hperm : s.Perm (runs.map (fun r => r.finalBalance)))
    (hsorted : s.Sorted (· ≤ ·)) :
    (calculateStatistics runs).medianFinalBalance = s.getD (runs.length / 2) 0 ∧
    (calculateStatistics runs).percentile5 =
      s.getD (Int.toNat ⌊(runs.length : ℚ) * (5/100)⌋) 0 ∧
    (calculateStatistics runs).percentile95 =
      s.getD (Int.toNat ⌊(runs.length : ℚ) * (95/100)⌋) 0 := by
  have hs : s = (runs.map (fun r => r.finalBalance)).mergeSort (fun a b => a ≤ b) := by
    apply List.eq_of_perm_of_sorted (r := (· ≤ · : ℚ → ℚ → Prop))
    · exact hperm.trans (List.mergeSort_perm _ _).symm
    · exact hsorted
    · exact List.sorted_mergeSort' _
  have hlen : ((runs.map (fun r => r.finalBalance)).mergeSort
      (fun a b => a ≤ b)).length = runs.length := by
    rw [(List.mergeSort_perm _ _).length_eq, List.length_map]
  rw [hs]
  unfold calculateStatistics
  dsimp only
  rw [hlen]
  exact ⟨rfl, rfl, rfl⟩

/-- Claim C4 witness: for two concrete runs with final balances 5 and 3, the
sorted list is `[3, 5]`, the median sits at index 1 and both percentiles at
index 0. -/
theorem claim4_percentile_indexing_witness :
    (calculateStatistics [runA, runB]).medianFinalBalance =
      [(3 : ℚ), 5].getD (([runA, runB] : List SimulationRun).length / 2) 0 ∧
    (calculateStatistics [runA, runB]).percentile5 =
      [(3 : ℚ), 5].getD (Int.toNat ⌊(([runA, runB] : List SimulationRun).length : ℚ) *
        (5/100)⌋) 0 ∧
    (calculateStatistics [runA, runB]).percentile95 =
      [(3 : ℚ), 5].getD (Int.toNat ⌊(([runA, runB] : List SimulationRun).length : ℚ) *
        (95/100)⌋) 0 :=
  claim4_percentile_indexing [runA, runB] (by simp) [(3 : ℚ), 5]
    (by with_unfolding_all decide) (by with_unfolding_all decide)

end CashFlow
